import Mathlib

/-!
Verification of the 3D-parallel training orchestration core in
`src/parallelisms/train_3d.c` (repository EugenHotaj/ml.c).

The development shallowly embeds:
- the driver `main` (CLI parsing, batch divisibility check, vocab padding,
  scratch-buffer sizing, sharding order) as pure functions plus an event trace;
- the per-rank forward protocol `Model_forward_3d` as a functional denotation
  over the whole process grid, with per-stage gather/swap/compute/restore
  sequences mirroring the C statement order;
- the communication primitives (`allgather`, `allreduce_mean`, `send`/`recv`,
  `MPI_Bcast`) and numeric kernels, which live in `distributed.c` / `model.c`
  (not present under `src/`), modelled from the spec's contracts: kernels are
  opaque deterministic functions (a `Kernels` record), all-gather is in-group
  rank-ordered concatenation, all-reduce-mean is the element-wise arithmetic
  mean, broadcast copies the root's value to every group member.

Scalars are modelled as `Rat` (the C code uses `float`; the claims under
study are dataflow and ordering facts, not rounding facts).
-/

/-- Events of the orchestration layer, used to state ordering claims about
`main` and about the per-stage bodies of `Model_forward_3d`. One constructor
per distinguishable action in the C source. -/
inductive Ev where
  | mpiInitE      -- MPI_Init (train_3d.c:111)
  | groupCreate   -- Dist_create: communicator/group derivation (train_3d.c:112)
  | configError   -- rank0_printf of the divisibility error (train_3d.c:116)
  | datasetE      -- Dataset_create_from_file / split / mallocs (train_3d.c:124-130)
  | modelCreateE  -- Model_create (train_3d.c:136)
  | padVocabE     -- Model_pad_vocab (train_3d.c:141)
  | maxSizeE      -- max_layer_size computation (train_3d.c:144-147)
  | allocE        -- malloc of flat_buffer (train_3d.c:149)
  | shardE        -- Model_shard_3d (train_3d.c:152)
  | batchE        -- Dataset_get_rank_batch (train_3d.c:156-158)
  | forwardE      -- Model_forward_3d call (train_3d.c:159)
  | allgatherE    -- allgather over dp_comm
  | swapIn        -- aliasing flat_buffer as the layer weight
  | kernelRun     -- opaque compute kernel call
  | restore       -- restoring the shard pointer and shape field
  | reluE         -- relu activation
  | sendE         -- point-to-point send over pp_comm
  | recvE         -- point-to-point recv over pp_comm
  | allreduceE    -- allreduce_mean
  | softmaxE      -- softmax kernel
  | lossE         -- cross_entropy_loss kernel
  | bcastE        -- MPI_Bcast of the loss (train_3d.c:88)
  | printE        -- printf of the unknown pp_rank message (train_3d.c:82)
  | abortE        -- MPI_Finalize(); exit(1)
  | finalizeE     -- normal MPI_Finalize (train_3d.c:163)
  deriving DecidableEq, Repr

/-- Padded vocabulary size, `train_3d.c:140`:
`vocab_size + (dist->dp_size - (vocab_size % dist->dp_size))`. -/
def vocab_size_padded (vocab_size dp_size : Nat) : Nat :=
  vocab_size + (dp_size - vocab_size % dp_size)

/-- Modelled from the spec (model.c is not under src): the element count of an
embedding table with `vocab_size` rows of `emb_size` entries, used by `main`
at `train_3d.c:145` via `Embedding_numel(model->wte)`. -/
def Embedding_numel (vocab_size emb_size : Nat) : Nat := vocab_size * emb_size

/-- Maximum layer size computed by `main`, `train_3d.c:144-147`: a running
maximum starting from 0 over the three unsharded layer element counts (the
embedding table is already padded at this point), each multiplied by
`dp_size`. `fc_1_numel` and `fc_2_numel` are the `Linear_weight_numel` values
of the two linear layers (model.c is not under src, so they stay symbolic). -/
def max_layer_size (vocab_size emb_size fc_1_numel fc_2_numel dp_size : Nat) : Nat :=
  let m0 := 0
  let m1 := max (Embedding_numel (vocab_size_padded vocab_size dp_size) emb_size * dp_size) m0
  let m2 := max (fc_1_numel * dp_size) m1
  max (fc_2_numel * dp_size) m2

/-- Element capacity of the scratch buffer allocated by `main`,
`train_3d.c:149`: `malloc(sizeof(float) * 2 * max_layer_size)`. -/
def flat_buffer_capacity (vocab_size emb_size fc_1_numel fc_2_numel dp_size : Nat) : Nat :=
  2 * max_layer_size vocab_size emb_size fc_1_numel fc_2_numel dp_size

/-- Event trace of `main` (`train_3d.c:93-165`), parameterized by the global
batch size and `dp_size`. `MPI_Init` and `Dist_create` (which performs the
collective communicator-group derivation; modelled from the spec since
distributed.c is not under src) run first; then the divisibility check either
aborts or the run proceeds through dataset setup, model creation and padding,
buffer sizing, allocation, sharding, batch extraction, the forward call and
the final data-parallel loss all-reduce. -/
def mainTrace (global_batch_size dp_size : Nat) : List Ev :=
  [Ev.mpiInitE, Ev.groupCreate] ++
  (if global_batch_size % dp_size ≠ 0 then
    [Ev.configError, Ev.finalizeE, Ev.abortE]
  else
    [Ev.datasetE, Ev.modelCreateE, Ev.padVocabE, Ev.maxSizeE, Ev.allocE,
     Ev.shardE, Ev.batchE, Ev.forwardE, Ev.allreduceE, Ev.finalizeE])

/-- Event trace of one rank's pass through `Model_forward_3d`
(`train_3d.c:33-90`), by pipeline coordinate. Each branch lists the rank's
actions in C statement order; a coordinate outside `{0,1,2}` reaches only the
error printf and the abort (never the final broadcast). -/
def stageTrace (pp_rank : Nat) : List Ev :=
  if pp_rank = 0 then
    [Ev.allgatherE, Ev.swapIn, Ev.kernelRun, Ev.restore, Ev.sendE, Ev.bcastE]
  else if pp_rank = 1 then
    [Ev.recvE, Ev.allgatherE, Ev.swapIn, Ev.kernelRun, Ev.restore, Ev.reluE,
     Ev.sendE, Ev.bcastE]
  else if pp_rank = 2 then
    [Ev.recvE, Ev.allgatherE, Ev.swapIn, Ev.kernelRun, Ev.restore,
     Ev.allreduceE, Ev.softmaxE, Ev.lossE, Ev.bcastE]
  else
    [Ev.printE, Ev.abortE]

/-- One iteration of the CLI-parsing loop of `main` (`train_3d.c:102-108`).
The state is `(tp value, dp value, out-of-bounds read occurred)`; `a` is
`argv[i]` and `next` is `argv[i+1]` (`none` when `i+1 = argc`: the C code
then reads one past the end of the argument list — the NULL terminator,
handed to `atoi` — recorded here by setting the Bool). Values are kept as
the raw strings; `atoi` stays opaque. -/
def parseStep (a : String) (next : Option String)
    (st : Option String × Option String × Bool) :
    Option String × Option String × Bool :=
  if a = "--tp" then
    match next with
    | some v => (some v, st.2.1, st.2.2)
    | none => (st.1, st.2.1, true)
  else if a = "--dp" then
    match next with
    | some v => (st.1, some v, st.2.2)
    | none => (st.1, st.2.1, true)
  else st

/-- The loop of `train_3d.c:102-108`: one `parseStep` per index, with the
lookahead `argv[i+1]` given by `rest.head?`. The loop advances one index per
iteration (no skip past the consumed value), which the recursion mirrors by
continuing on `rest` unchanged. -/
def parseArgsGo : List String → Option String × Option String × Bool →
    Option String × Option String × Bool
  | [], st => st
  | a :: rest, st => parseArgsGo rest (parseStep a rest.head? st)

/-- Result of the argument loop of `main` over the whole `argv`. `none` in a
component means the corresponding C variable (`tp_size` / `dp_size`,
`train_3d.c:101`) was never assigned and is used uninitialized. -/
def parseArgs (argv : List String) : Option String × Option String × Bool :=
  parseArgsGo argv (none, none, false)

/-- Embedding layer record: the fields of `Embedding` that
`Model_forward_3d` reads or swaps (`wte->embedding`, `wte->vocab_size`). -/
structure Embedding where
  embedding : List Rat
  vocab_size : Nat
  deriving DecidableEq, Repr

/-- Linear layer record: the fields of `Linear` that `Model_forward_3d`
reads or swaps (`weight`, `in_features`). -/
structure Linear where
  weight : List Rat
  in_features : Nat
  deriving DecidableEq, Repr

/-- Per-rank model state: the three layer shards and the named activation
slots mutated in place by `Model_forward_3d`. -/
structure Model where
  wte : Embedding
  fc_1 : Linear
  fc_2 : Linear
  wte_out : List Rat
  wte_out_flat : List Rat
  fc_1_out : List Rat
  relu_out : List Rat
  fc_2_out : List Rat
  softmax_out : List Rat
  deriving DecidableEq, Repr

/-- Modelled from the spec: the opaque, deterministic numeric compute kernels
(`EmbeddingForward`, `LinearForward`, the nonlinearity, `Softmax`,
`CrossEntropyLoss`) that live in model.c, which is not under src. Each is an
arbitrary function of its inputs; the claims under study do not depend on
their numerics, only on what they are invoked with. -/
structure Kernels where
  Embedding_forward : Embedding → List Nat → List Rat
  Linear_forward : Linear → List Rat → List Rat
  relu : List Rat → List Rat
  softmax : List Rat → List Rat
  cross_entropy_loss : List Rat → List Nat → Rat

/-- Modelled from the spec (distributed.c is not under src): `AllGather`
concatenates every group member's shard in ascending in-group rank order;
this is the resulting content of the output buffer on every member. -/
def allgather (shards : List (List Rat)) : List Rat := shards.flatten

/-- Element-wise sum of equally-sized buffers. -/
def vecSum : List (List Rat) → List Rat
  | [] => []
  | [x] => x
  | x :: xs => List.zipWith (· + ·) x (vecSum xs)

/-- Modelled from the spec (distributed.c is not under src):
`AllReduceMean` replaces every member's buffer, element-wise, by the
arithmetic mean across the group; this is that common resulting value given
the list of all members' buffers. -/
def allreduce_mean (bufs : List (List Rat)) : List Rat :=
  (vecSum bufs).map (fun x => x / (bufs.length : Rat))

/-- Modelled from the spec: `Broadcast` copies the root's buffer to every
member of the group; member `i` of the group ends up holding the root's
value. The loss broadcast at `train_3d.c:88` uses root rank 2 of `pp_comm`. -/
def broadcast (bufs : Nat → Option Rat) (root : Nat) : Nat → Option Rat :=
  fun _ => bufs root

/-- Stage-0 body of `Model_forward_3d` (`train_3d.c:36-45`) after the
all-gather: save the shard pointer and `vocab_size`, alias `flat_buffer` as
the embedding with `vocab_size` scaled by `dp_size`, run the embedding
lookup into `wte_out`, then restore the saved pointer and shape. -/
def stage0_forward (K : Kernels) (dp_size : Nat) (m : Model) (Xs : List Nat)
    (flat_buffer : List Rat) : Model :=
  let wte_shard := m.wte.embedding
  let wte_shard_vocab_size := m.wte.vocab_size
  let m := { m with wte := { embedding := flat_buffer,
                             vocab_size := wte_shard_vocab_size * dp_size } }
  let m := { m with wte_out := K.Embedding_forward m.wte Xs }
  let m := { m with wte := { embedding := wte_shard,
                             vocab_size := wte_shard_vocab_size } }
  m

/-- Stage-1 body of `Model_forward_3d` (`train_3d.c:49-62`): receive the
stage-0 activation into `wte_out_flat`, save the `fc_1` shard pointer and
`in_features`, alias `flat_buffer` with `in_features` scaled by `dp_size`,
run the linear transform into `fc_1_out`, restore the shard, apply relu
into `relu_out`. -/
def stage1_forward (K : Kernels) (dp_size : Nat) (m : Model)
    (recv_value : List Rat) (flat_buffer : List Rat) : Model :=
  let m := { m with wte_out_flat := recv_value }
  let fc_1_shard := m.fc_1.weight
  let fc_1_shard_in_features := m.fc_1.in_features
  let m := { m with fc_1 := { weight := flat_buffer,
                              in_features := fc_1_shard_in_features * dp_size } }
  let m := { m with fc_1_out := K.Linear_forward m.fc_1 m.wte_out_flat }
  let m := { m with fc_1 := { weight := fc_1_shard,
                              in_features := fc_1_shard_in_features } }
  let m := { m with relu_out := K.relu m.fc_1_out }
  m

/-- Stage-2 local part of `Model_forward_3d` (`train_3d.c:65-76`), up to and
including the restore: receive the stage-1 activation into `relu_out`, save
the `fc_2` shard pointer and `in_features`, alias `flat_buffer` with
`in_features` scaled by `dp_size`, run the linear transform into `fc_2_out`
(the raw per-TP-rank logits), restore the shard. -/
def stage2_local (K : Kernels) (dp_size : Nat) (m : Model)
    (recv_value : List Rat) (flat_buffer : List Rat) : Model :=
  let m := { m with relu_out := recv_value }
  let fc_2_shard := m.fc_2.weight
  let fc_2_shard_in_features := m.fc_2.in_features
  let m := { m with fc_2 := { weight := flat_buffer,
                              in_features := fc_2_shard_in_features * dp_size } }
  let m := { m with fc_2_out := K.Linear_forward m.fc_2 m.relu_out }
  let m := { m with fc_2 := { weight := fc_2_shard,
                              in_features := fc_2_shard_in_features } }
  m

/-- Stage-2 tail of `Model_forward_3d` (`train_3d.c:78-80`): the logits slot
is overwritten by the tensor-parallel all-reduce-mean result, softmax writes
the probabilities slot, and the scalar loss is computed against the local
labels. Returns the updated model and the loss. -/
def stage2_finish (K : Kernels) (m : Model) (reduced : List Rat)
    (Ys : List Nat) : Model × Rat :=
  let m := { m with fc_2_out := reduced }
  let m := { m with softmax_out := K.softmax m.fc_2_out }
  (m, K.cross_entropy_loss m.softmax_out Ys)

/-- Whole-grid input of one `Model_forward_3d` step: the kernels, the
topology sizes, and per-coordinate `(tp, dp, pp)` model shards and batches.
The blocking, deterministic primitives make the distributed execution a
function of this record. -/
structure Sys where
  K : Kernels
  tp_size : Nat
  dp_size : Nat
  models : Nat → Nat → Nat → Model
  XsOf : Nat → Nat → Nat → List Nat
  YsOf : Nat → Nat → Nat → List Nat

/-- Content of `flat_buffer` after the stage-0 all-gather on a rank with
coordinates `(tp, dp, 0)`: the `wte` shards of its data-parallel group
(the ranks sharing `tp_rank` and `pp_rank`), in ascending `dp_rank` order. -/
def wteGathered (S : Sys) (tp : Nat) : List Rat :=
  allgather ((List.range S.dp_size).map (fun d => (S.models tp d 0).wte.embedding))

/-- Content of `flat_buffer` after the stage-1 all-gather. -/
def fc1Gathered (S : Sys) (tp : Nat) : List Rat :=
  allgather ((List.range S.dp_size).map (fun d => (S.models tp d 1).fc_1.weight))

/-- Content of `flat_buffer` after the stage-2 all-gather. -/
def fc2Gathered (S : Sys) (tp : Nat) : List Rat :=
  allgather ((List.range S.dp_size).map (fun d => (S.models tp d 2).fc_2.weight))

/-- Model state of rank `(tp, dp, 0)` when `Model_forward_3d` reaches the
send at `train_3d.c:47`. -/
def model0After (S : Sys) (tp dp : Nat) : Model :=
  stage0_forward S.K S.dp_size (S.models tp dp 0) (S.XsOf tp dp 0) (wteGathered S tp)

/-- Activation sent from `(tp, dp, 0)` to `(tp, dp, 1)` over `pp_comm`
(`train_3d.c:47`): the embedding output. -/
def act0 (S : Sys) (tp dp : Nat) : List Rat := (model0After S tp dp).wte_out

/-- Model state of rank `(tp, dp, 1)` when it reaches the send at
`train_3d.c:63`. -/
def model1After (S : Sys) (tp dp : Nat) : Model :=
  stage1_forward S.K S.dp_size (S.models tp dp 1) (act0 S tp dp) (fc1Gathered S tp)

/-- Activation sent from `(tp, dp, 1)` to `(tp, dp, 2)` over `pp_comm`
(`train_3d.c:63`): the post-relu activation. -/
def act1 (S : Sys) (tp dp : Nat) : List Rat := (model1After S tp dp).relu_out

/-- Model state of rank `(tp, dp, 2)` just before the `allreduce_mean` at
`train_3d.c:78`. -/
def model2Local (S : Sys) (tp dp : Nat) : Model :=
  stage2_local S.K S.dp_size (S.models tp dp 2) (act1 S tp dp) (fc2Gathered S tp)

/-- Raw logits of rank `(tp, dp, 2)`: the `fc_2_out` slot as written by the
linear kernel, before the tensor-parallel reduction. -/
def rawLogits (S : Sys) (tp dp : Nat) : List Rat := (model2Local S tp dp).fc_2_out

/-- Logits after `allreduce_mean` over `tp_comm` (the ranks sharing
`dp_rank` and `pp_rank`): element-wise mean over the `tp_size` raw logits
buffers; identical on every member of the tensor-parallel group. -/
def reducedLogits (S : Sys) (dp : Nat) : List Rat :=
  allreduce_mean ((List.range S.tp_size).map (fun t => rawLogits S t dp))

/-- Final model state of rank `(tp, dp, 2)` when it reaches the broadcast. -/
def model2After (S : Sys) (tp dp : Nat) : Model :=
  (stage2_finish S.K (model2Local S tp dp) (reducedLogits S dp) (S.YsOf tp dp 2)).1

/-- Scalar loss computed on rank `(tp, dp, 2)` (`train_3d.c:80`). -/
def stage2loss (S : Sys) (tp dp : Nat) : Rat :=
  (stage2_finish S.K (model2Local S tp dp) (reducedLogits S dp) (S.YsOf tp dp 2)).2

/-- Model state of rank `(tp, dp, pp)` when `Model_forward_3d` reaches the
broadcast at `train_3d.c:88` (for `pp` outside `{0,1,2}` the rank aborted and
its model is unchanged). -/
def finalModel (S : Sys) (tp dp pp : Nat) : Model :=
  if pp = 0 then model0After S tp dp
  else if pp = 1 then model1After S tp dp
  else if pp = 2 then model2After S tp dp
  else S.models tp dp pp

/-- Value of the local variable `loss` (`train_3d.c:34`) on rank
`(tp, dp, pp)` just before the broadcast: assigned only by the `pp_rank == 2`
branch; on stages 0 and 1 it is still uninitialized (`none`). -/
def preBcastLoss (S : Sys) (tp dp pp : Nat) : Option Rat :=
  if pp = 2 then some (stage2loss S tp dp) else none

/-- Value of `loss` on rank `(tp, dp, pp)` after the `MPI_Bcast` from root
rank 2 of `pp_comm` (`train_3d.c:88`). -/
def postBcastLoss (S : Sys) (tp dp pp : Nat) : Option Rat :=
  broadcast (preBcastLoss S tp dp) 2 pp

/-- Return value of `Model_forward_3d` on rank `(tp, dp, pp)`: the broadcast
loss for a valid pipeline coordinate; `none` when the rank took the
unknown-`pp_rank` branch, which exits without returning (`train_3d.c:81-85`). -/
def forwardResult (S : Sys) (tp dp pp : Nat) : Option Rat :=
  if pp = 0 ∨ pp = 1 ∨ pp = 2 then postBcastLoss S tp dp pp else none

/-- Concrete kernel instantiation used for witness evaluations: simple total
functions of the right types. -/
def K0 : Kernels where
  Embedding_forward := fun e _ => e.embedding
  Linear_forward := fun l v => l.weight ++ v
  relu := fun v => v
  softmax := fun v => v
  cross_entropy_loss := fun v _ => (v.length : Rat)

/-- Concrete per-rank model used for witness evaluations. -/
def M0 : Model where
  wte := { embedding := [1, 2], vocab_size := 2 }
  fc_1 := { weight := [3], in_features := 1 }
  fc_2 := { weight := [4], in_features := 1 }
  wte_out := []
  wte_out_flat := []
  fc_1_out := []
  relu_out := []
  fc_2_out := []
  softmax_out := []

/-- Concrete one-rank-per-group system used for witness evaluations. -/
def S0 : Sys where
  K := K0
  tp_size := 1
  dp_size := 1
  models := fun _ _ _ => M0
  XsOf := fun _ _ _ => [0]
  YsOf := fun _ _ _ => [1]

theorem parseStep_oob_mono (a : String) (n : Option String)
    (st : Option String × Option String × Bool) (h : st.2.2 = true) :
    (parseStep a n st).2.2 = true := by
  unfold parseStep
  rcases n with _ | v <;> split <;> simp_all <;> split <;> simp_all

theorem parseStep_tp_isSome_mono (a : String) (n : Option String)
    (st : Option String × Option String × Bool) (h : st.1.isSome) :
    (parseStep a n st).1.isSome := by
  unfold parseStep
  rcases n with _ | v <;> split <;> simp_all <;> split <;> simp_all

theorem parseStep_dp_isSome_mono (a : String) (n : Option String)
    (st : Option String × Option String × Bool) (h : st.2.1.isSome) :
    (parseStep a n st).2.1.isSome := by
  unfold parseStep
  rcases n with _ | v <;> split <;> simp_all <;> split <;> simp_all

theorem parseStep_tp_of_ne (a : String) (n : Option String)
    (st : Option String × Option String × Bool) (h : a ≠ "--tp") :
    (parseStep a n st).1 = st.1 := by
  unfold parseStep
  rw [if_neg h]
  split
  · rcases n with _ | v <;> rfl
  · rfl

theorem parseStep_dp_of_ne (a : String) (n : Option String)
    (st : Option String × Option String × Bool) (h : a ≠ "--dp") :
    (parseStep a n st).2.1 = st.2.1 := by
  unfold parseStep
  split
  · rcases n with _ | v <;> rfl
  · simp [h]

theorem parseArgsGo_oob_mono (l : List String) :
    ∀ st : Option String × Option String × Bool, st.2.2 = true →
      (parseArgsGo l st).2.2 = true := by
  induction l with
  | nil => intro st h; simpa [parseArgsGo] using h
  | cons a rest ih =>
    intro st h
    simpa [parseArgsGo] using ih _ (parseStep_oob_mono a rest.head? st h)

theorem parseArgsGo_tp_isSome_mono (l : List String) :
    ∀ st : Option String × Option String × Bool, st.1.isSome →
      (parseArgsGo l st).1.isSome := by
  induction l with
  | nil => intro st h; simpa [parseArgsGo] using h
  | cons a rest ih =>
    intro st h
    simpa [parseArgsGo] using ih _ (parseStep_tp_isSome_mono a rest.head? st h)

theorem parseArgsGo_dp_isSome_mono (l : List String) :
    ∀ st : Option String × Option String × Bool, st.2.1.isSome →
      (parseArgsGo l st).2.1.isSome := by
  induction l with
  | nil => intro st h; simpa [parseArgsGo] using h
  | cons a rest ih =>
    intro st h
    simpa [parseArgsGo] using ih _ (parseStep_dp_isSome_mono a rest.head? st h)

theorem parseArgsGo_tp_stable (l : List String) (hl : "--tp" ∉ l) :
    ∀ st : Option String × Option String × Bool,
      (parseArgsGo l st).1 = st.1 := by
  induction l with
  | nil => intro st; simp [parseArgsGo]
  | cons a rest ih =>
    intro st
    have ha : a ≠ "--tp" := fun h => hl (h ▸ List.mem_cons_self a rest)
    have hrest : "--tp" ∉ rest := fun h => hl (List.mem_cons_of_mem a h)
    rw [parseArgsGo, ih hrest, parseStep_tp_of_ne a rest.head? st ha]

theorem parseArgsGo_dp_stable (l : List String) (hl : "--dp" ∉ l) :
    ∀ st : Option String × Option String × Bool,
      (parseArgsGo l st).2.1 = st.2.1 := by
  induction l with
  | nil => intro st; simp [parseArgsGo]
  | cons a rest ih =>
    intro st
    have ha : a ≠ "--dp" := fun h => hl (h ▸ List.mem_cons_self a rest)
    have hrest : "--dp" ∉ rest := fun h => hl (List.mem_cons_of_mem a h)
    rw [parseArgsGo, ih hrest, parseStep_dp_of_ne a rest.head? st ha]

theorem parseArgsGo_last_tp (pre : List String) :
    ∀ st : Option String × Option String × Bool,
      (parseArgsGo (pre ++ ["--tp"]) st).2.2 = true := by
  induction pre with
  | nil => intro st; simp [parseArgsGo, parseStep]
  | cons a rest ih =>
    intro st
    rw [List.cons_append, parseArgsGo]
    exact ih _

theorem parseArgsGo_last_dp (pre : List String) :
    ∀ st : Option String × Option String × Bool,
      (parseArgsGo (pre ++ ["--dp"]) st).2.2 = true := by
  induction pre with
  | nil => intro st; simp [parseArgsGo, parseStep]
  | cons a rest ih =>
    intro st
    rw [List.cons_append, parseArgsGo]
    exact ih _

theorem parseArgsGo_tp_set (l1 : List String) (v : String) (l2 : List String) :
    ∀ st : Option String × Option String × Bool,
      (parseArgsGo (l1 ++ "--tp" :: v :: l2) st).1.isSome := by
  induction l1 with
  | nil =>
    intro st
    rw [List.nil_append, parseArgsGo]
    exact parseArgsGo_tp_isSome_mono _ _ (by simp [parseStep])
  | cons a rest ih =>
    intro st
    rw [List.cons_append, parseArgsGo]
    exact ih _

theorem parseArgsGo_dp_set (l1 : List String) (v : String) (l2 : List String) :
    ∀ st : Option String × Option String × Bool,
      (parseArgsGo (l1 ++ "--dp" :: v :: l2) st).2.1.isSome := by
  induction l1 with
  | nil =>
    intro st
    rw [List.nil_append, parseArgsGo]
    exact parseArgsGo_dp_isSome_mono _ _ (by simp [parseStep])
  | cons a rest ih =>
    intro st
    rw [List.cons_append, parseArgsGo]
    exact ih _

theorem vocab_size_padded_eq (v d : Nat) (h : 1 ≤ d) :
    vocab_size_padded v d = d * (v / d + 1) := by
  unfold vocab_size_padded
  have h2 := Nat.div_add_mod v d
  have h3 : v % d < d := Nat.mod_lt _ h
  rw [Nat.mul_add, Nat.mul_one]
  generalize hq : d * (v / d) = m at h2 ⊢
  generalize hr : v % d = r at h2 h3 ⊢
  omega

/-- C9: for every `vocab_size` and every `dp_size ≥ 1`, the padded vocabulary
size `vocab_size + (dp_size - vocab_size % dp_size)` (`train_3d.c:140`) is
divisible by `dp_size` and strictly greater than `vocab_size`, and when
`vocab_size` is already divisible by `dp_size` it equals
`vocab_size + dp_size` — one full block past the smallest multiple of
`dp_size` that is at least `vocab_size`. -/
theorem c9_padded_vocab (vocab_size dp_size : Nat) (h : 1 ≤ dp_size) :
    dp_size ∣ vocab_size_padded vocab_size dp_size ∧
    vocab_size < vocab_size_padded vocab_size dp_size ∧
    (vocab_size % dp_size = 0 →
      vocab_size_padded vocab_size dp_size = vocab_size + dp_size) := by
  refine ⟨⟨vocab_size / dp_size + 1, vocab_size_padded_eq vocab_size dp_size h⟩, ?_, ?_⟩
  · have h3 : vocab_size % dp_size < dp_size := Nat.mod_lt _ h
    unfold vocab_size_padded
    generalize hr : vocab_size % dp_size = r at h3 ⊢
    omega
  · intro hz
    unfold vocab_size_padded
    rw [hz, Nat.sub_zero]

theorem c9_padded_vocab_witness :
    vocab_size_padded 27 1 = 27 + 1 ∧ 27 < vocab_size_padded 27 1 :=
  ⟨(c9_padded_vocab 27 1 (by decide)).2.2 (by decide),
   (c9_padded_vocab 27 1 (by decide)).2.1⟩

/-- C2, counterexample: with `global_batch_size = 32` and `dp_size = 5`
(not divisible), the trace of `main` reaches the configuration error only
after `Dist_create` has already performed the communicator group creation
(`train_3d.c:112` runs before the check at `train_3d.c:115`), contradicting
the claim that the error precedes any group-creation communication. -/
theorem c2_counterexample :
    32 % 5 ≠ 0 ∧
    Ev.configError ∈ mainTrace 32 5 ∧
    (mainTrace 32 5).indexOf Ev.groupCreate <
      (mainTrace 32 5).indexOf Ev.configError := by
  decide

/-- C2, amended: for every global batch size not divisible by `dp_size`, the
driver reports the configuration error and terminates the group before any
collective or point-to-point data communication (all-gather, all-reduce,
send/recv, broadcast, the forward protocol, batch distribution) — but after
MPI initialization and the communicator group creation of `Dist_create`,
which `main` runs before the divisibility check. -/
theorem c2_divisibility_check (global_batch_size dp_size : Nat)
    (h : global_batch_size % dp_size ≠ 0) :
    mainTrace global_batch_size dp_size =
      [Ev.mpiInitE, Ev.groupCreate, Ev.configError, Ev.finalizeE, Ev.abortE] ∧
    Ev.allgatherE ∉ mainTrace global_batch_size dp_size ∧
    Ev.allreduceE ∉ mainTrace global_batch_size dp_size ∧
    Ev.sendE ∉ mainTrace global_batch_size dp_size ∧
    Ev.recvE ∉ mainTrace global_batch_size dp_size ∧
    Ev.bcastE ∉ mainTrace global_batch_size dp_size ∧
    Ev.forwardE ∉ mainTrace global_batch_size dp_size ∧
    Ev.batchE ∉ mainTrace global_batch_size dp_size ∧
    (mainTrace global_batch_size dp_size).indexOf Ev.configError <
      (mainTrace global_batch_size dp_size).indexOf Ev.finalizeE ∧
    (mainTrace global_batch_size dp_size).indexOf Ev.groupCreate <
      (mainTrace global_batch_size dp_size).indexOf Ev.configError := by
  have ht : mainTrace global_batch_size dp_size =
      [Ev.mpiInitE, Ev.groupCreate, Ev.configError, Ev.finalizeE, Ev.abortE] := by
    simp [mainTrace, h]
  rw [ht]
  decide

theorem c2_divisibility_check_witness :
    mainTrace 32 5 =
      [Ev.mpiInitE, Ev.groupCreate, Ev.configError, Ev.finalizeE, Ev.abortE] ∧
    Ev.allgatherE ∉ mainTrace 32 5 ∧
    Ev.allreduceE ∉ mainTrace 32 5 ∧
    Ev.sendE ∉ mainTrace 32 5 ∧
    Ev.recvE ∉ mainTrace 32 5 ∧
    Ev.bcastE ∉ mainTrace 32 5 ∧
    Ev.forwardE ∉ mainTrace 32 5 ∧
    Ev.batchE ∉ mainTrace 32 5 ∧
    (mainTrace 32 5).indexOf Ev.configError < (mainTrace 32 5).indexOf Ev.finalizeE ∧
    (mainTrace 32 5).indexOf Ev.groupCreate < (mainTrace 32 5).indexOf Ev.configError :=
  c2_divisibility_check 32 5 (by decide)

/-- C3: the scratch buffer capacity allocated by `main` (`train_3d.c:144-149`)
equals 2 times the maximum over the three layers (padded embedding table,
first linear layer, second linear layer) of the unsharded element count times
`dp_size`; and in the trace of `main` the maximum is computed after the vocab
padding but before `Model_shard_3d` (whose pipeline step deallocates layers)
runs. -/
theorem c3_scratch_capacity (vocab_size emb_size fc_1_numel fc_2_numel dp_size
    global_batch_size : Nat) (h : global_batch_size % dp_size = 0) :
    flat_buffer_capacity vocab_size emb_size fc_1_numel fc_2_numel dp_size =
      2 * max (Embedding_numel (vocab_size_padded vocab_size dp_size) emb_size * dp_size)
          (max (fc_1_numel * dp_size) (fc_2_numel * dp_size)) ∧
    (mainTrace global_batch_size dp_size).indexOf Ev.padVocabE <
      (mainTrace global_batch_size dp_size).indexOf Ev.maxSizeE ∧
    (mainTrace global_batch_size dp_size).indexOf Ev.maxSizeE <
      (mainTrace global_batch_size dp_size).indexOf Ev.shardE := by
  constructor
  · simp only [flat_buffer_capacity, max_layer_size]
    generalize Embedding_numel (vocab_size_padded vocab_size dp_size) emb_size * dp_size = w
    generalize fc_1_numel * dp_size = a
    generalize fc_2_numel * dp_size = b
    omega
  · have ht : mainTrace global_batch_size dp_size =
        [Ev.mpiInitE, Ev.groupCreate, Ev.datasetE, Ev.modelCreateE, Ev.padVocabE,
         Ev.maxSizeE, Ev.allocE, Ev.shardE, Ev.batchE, Ev.forwardE, Ev.allreduceE,
         Ev.finalizeE] := by
      simp [mainTrace, h]
    rw [ht]
    decide

theorem c3_scratch_capacity_witness :
    flat_buffer_capacity 27 16 2048 3584 2 =
      2 * max (Embedding_numel (vocab_size_padded 27 2) 16 * 2)
          (max (2048 * 2) (3584 * 2)) ∧
    (mainTrace 32 2).indexOf Ev.padVocabE < (mainTrace 32 2).indexOf Ev.maxSizeE ∧
    (mainTrace 32 2).indexOf Ev.maxSizeE < (mainTrace 32 2).indexOf Ev.shardE :=
  c3_scratch_capacity 27 16 2048 3584 2 32 (by decide)

/-- C10: the CLI parse of `main` (`train_3d.c:101-108`) is total only when
both `--tp` and `--dp` appear followed by a value argument: if either flag
is absent from an argument list the corresponding variable is never assigned
on that run (stays `none`, i.e. the C variable is used uninitialized) —
`argv_tp` and `argv_dp` are independent runs, so each absence hypothesis
constrains only its own flag and the other flag may well be present; if
`--tp` or `--dp` is the final argument the loop reads one past the end of
the argument list; when a flag is followed by a value the corresponding
variable is assigned. -/
theorem c10_cli_parsing (argv_tp argv_dp pre l1 l2 : List String) (v : String)
    (htp : "--tp" ∉ argv_tp) (hdp : "--dp" ∉ argv_dp) :
    (parseArgs argv_tp).1 = none ∧
    (parseArgs argv_dp).2.1 = none ∧
    (parseArgs (pre ++ ["--tp"])).2.2 = true ∧
    (parseArgs (pre ++ ["--dp"])).2.2 = true ∧
    (parseArgs (l1 ++ "--tp" :: v :: l2)).1.isSome ∧
    (parseArgs (l1 ++ "--dp" :: v :: l2)).2.1.isSome :=
  ⟨parseArgsGo_tp_stable argv_tp htp _,
   parseArgsGo_dp_stable argv_dp hdp _,
   parseArgsGo_last_tp pre _,
   parseArgsGo_last_dp pre _,
   parseArgsGo_tp_set l1 v l2 _,
   parseArgsGo_dp_set l1 v l2 _⟩

theorem c10_cli_parsing_witness :
    (parseArgs ["a.out", "--dp", "2"]).1 = none ∧
    (parseArgs ["a.out", "--tp", "2"]).2.1 = none ∧
    (parseArgs (["a.out"] ++ ["--tp"])).2.2 = true ∧
    (parseArgs (["a.out"] ++ ["--dp"])).2.2 = true ∧
    (parseArgs (["a.out"] ++ "--tp" :: "2" :: ["--dp", "2"])).1.isSome ∧
    (parseArgs (["a.out"] ++ "--dp" :: "2" :: ["--tp", "2"])).2.1.isSome :=
  c10_cli_parsing ["a.out", "--dp", "2"] ["a.out", "--tp", "2"]
    ["a.out"] ["a.out"] ["--dp", "2"] "2" (by decide) (by decide)

/-- C1: for every run whose pipeline coordinates are all in `{0,1,2}`, after
`Model_forward_3d` returns on all ranks every rank of a pipeline group
returns the same loss value, and that value equals the scalar loss computed
on the rank at pipeline stage 2 of its pipeline group, broadcast from stage 2
over the pipeline communicator (`train_3d.c:86-89`). -/
theorem c1_loss_broadcast (S : Sys) (tp dp pp pq : Nat)
    (h : pp < 3) (h' : pq < 3) :
    forwardResult S tp dp pp = forwardResult S tp dp pq ∧
    forwardResult S tp dp pp = some (stage2loss S tp dp) := by
  have e : ∀ q, q < 3 → forwardResult S tp dp q = some (stage2loss S tp dp) := by
    intro q hq
    interval_cases q <;>
      simp [forwardResult, postBcastLoss, broadcast, preBcastLoss]
  exact ⟨(e pp h).trans (e pq h').symm, e pp h⟩

theorem c1_loss_broadcast_witness :
    forwardResult S0 0 0 0 = forwardResult S0 0 0 1 ∧
    forwardResult S0 0 0 0 = some (stage2loss S0 0 0) :=
  c1_loss_broadcast S0 0 0 0 1 (by decide) (by decide)

/-- C4: for every pipeline stage in `{0,1,2}`, when `Model_forward_3d`
reaches the final broadcast the stage's layer weight pointer and effective
shape field (`wte->embedding` / `wte->vocab_size` on stage 0,
`fc_1->weight` / `fc_1->in_features` on stage 1, `fc_2->weight` /
`fc_2->in_features` on stage 2) equal their values before the call, and in
each stage's statement order the restore precedes the subsequent
communication (the send on stages 0 and 1, the all-reduce on stage 2, and
the final broadcast on all three). -/
theorem c4_shard_restored (S : Sys) (tp dp : Nat) :
    ((finalModel S tp dp 0).wte.embedding = (S.models tp dp 0).wte.embedding ∧
     (finalModel S tp dp 0).wte.vocab_size = (S.models tp dp 0).wte.vocab_size) ∧
    ((finalModel S tp dp 1).fc_1.weight = (S.models tp dp 1).fc_1.weight ∧
     (finalModel S tp dp 1).fc_1.in_features = (S.models tp dp 1).fc_1.in_features) ∧
    ((finalModel S tp dp 2).fc_2.weight = (S.models tp dp 2).fc_2.weight ∧
     (finalModel S tp dp 2).fc_2.in_features = (S.models tp dp 2).fc_2.in_features) ∧
    (stageTrace 0).indexOf Ev.restore < (stageTrace 0).indexOf Ev.sendE ∧
    (stageTrace 1).indexOf Ev.restore < (stageTrace 1).indexOf Ev.sendE ∧
    (stageTrace 2).indexOf Ev.restore < (stageTrace 2).indexOf Ev.allreduceE ∧
    (stageTrace 0).indexOf Ev.restore < (stageTrace 0).indexOf Ev.bcastE ∧
    (stageTrace 1).indexOf Ev.restore < (stageTrace 1).indexOf Ev.bcastE ∧
    (stageTrace 2).indexOf Ev.restore < (stageTrace 2).indexOf Ev.bcastE :=
  ⟨⟨rfl, rfl⟩, ⟨rfl, rfl⟩, ⟨rfl, rfl⟩, by decide, by decide, by decide,
   by decide, by decide, by decide⟩

/-- C5: while each stage runs its local compute kernel, the layer record
handed to the kernel has its weight aliased to the scratch buffer holding
the all-gathered shards of the data-parallel group and its effective
dimension equal to the shard's dimension times `dp_size`: stage 0 runs the
embedding lookup with `vocab_size * dp_size`, stages 1 and 2 run the linear
transform with `in_features * dp_size`. -/
theorem c5_gathered_kernel_inputs (S : Sys) (tp dp : Nat) :
    (finalModel S tp dp 0).wte_out =
      S.K.Embedding_forward
        { embedding := wteGathered S tp,
          vocab_size := (S.models tp dp 0).wte.vocab_size * S.dp_size }
        (S.XsOf tp dp 0) ∧
    (finalModel S tp dp 1).fc_1_out =
      S.K.Linear_forward
        { weight := fc1Gathered S tp,
          in_features := (S.models tp dp 1).fc_1.in_features * S.dp_size }
        (act0 S tp dp) ∧
    rawLogits S tp dp =
      S.K.Linear_forward
        { weight := fc2Gathered S tp,
          in_features := (S.models tp dp 2).fc_2.in_features * S.dp_size }
        (act1 S tp dp) :=
  ⟨rfl, rfl, rfl⟩

/-- C6: on pipeline stage 2, after the linear transform writes the logits
slot the logits are replaced element-wise by the arithmetic mean across the
tensor-parallel group, softmax is applied to that reduced value, and the
scalar loss is computed from it against the local labels; the loss is only
assigned on stage 2 (stages 0 and 1 leave it untouched), and in stage 2's
statement order the all-reduce falls between the linear kernel and the
softmax, which precedes the loss. -/
theorem c6_allreduce_before_softmax (S : Sys) (tp dp pp : Nat)
    (hpp : pp = 0 ∨ pp = 1) :
    (finalModel S tp dp 2).fc_2_out = reducedLogits S dp ∧
    reducedLogits S dp =
      allreduce_mean ((List.range S.tp_size).map (fun t => rawLogits S t dp)) ∧
    (finalModel S tp dp 2).softmax_out = S.K.softmax (reducedLogits S dp) ∧
    stage2loss S tp dp =
      S.K.cross_entropy_loss (S.K.softmax (reducedLogits S dp)) (S.YsOf tp dp 2) ∧
    preBcastLoss S tp dp 2 = some (stage2loss S tp dp) ∧
    preBcastLoss S tp dp pp = none ∧
    (stageTrace 2).indexOf Ev.kernelRun < (stageTrace 2).indexOf Ev.allreduceE ∧
    (stageTrace 2).indexOf Ev.allreduceE < (stageTrace 2).indexOf Ev.softmaxE ∧
    (stageTrace 2).indexOf Ev.softmaxE < (stageTrace 2).indexOf Ev.lossE := by
  refine ⟨rfl, rfl, rfl, rfl, rfl, ?_, by decide, by decide, by decide⟩
  rcases hpp with h | h <;> simp [preBcastLoss, h]

theorem c6_allreduce_before_softmax_witness :
    (finalModel S0 0 0 2).fc_2_out = reducedLogits S0 0 ∧
    reducedLogits S0 0 =
      allreduce_mean ((List.range S0.tp_size).map (fun t => rawLogits S0 t 0)) ∧
    (finalModel S0 0 0 2).softmax_out = S0.K.softmax (reducedLogits S0 0) ∧
    stage2loss S0 0 0 =
      S0.K.cross_entropy_loss (S0.K.softmax (reducedLogits S0 0)) (S0.YsOf 0 0 2) ∧
    preBcastLoss S0 0 0 2 = some (stage2loss S0 0 0) ∧
    preBcastLoss S0 0 0 0 = none ∧
    (stageTrace 2).indexOf Ev.kernelRun < (stageTrace 2).indexOf Ev.allreduceE ∧
    (stageTrace 2).indexOf Ev.allreduceE < (stageTrace 2).indexOf Ev.softmaxE ∧
    (stageTrace 2).indexOf Ev.softmaxE < (stageTrace 2).indexOf Ev.lossE :=
  c6_allreduce_before_softmax S0 0 0 0 (Or.inl rfl)

/-- C7: a rank whose pipeline coordinate lies outside `{0,1,2}` takes only
the error branch of `Model_forward_3d` (`train_3d.c:81-85`): its trace is
the error printf followed by the process-group shutdown and exit, it runs no
gather or kernel, it never reaches the final loss broadcast, and it returns
no loss. -/
theorem c7_unknown_pp_rank (S : Sys) (tp dp pp : Nat)
    (h : ¬(pp = 0 ∨ pp = 1 ∨ pp = 2)) :
    stageTrace pp = [Ev.printE, Ev.abortE] ∧
    Ev.allgatherE ∉ stageTrace pp ∧
    Ev.kernelRun ∉ stageTrace pp ∧
    Ev.bcastE ∉ stageTrace pp ∧
    Ev.abortE ∈ stageTrace pp ∧
    forwardResult S tp dp pp = none := by
  push_neg at h
  obtain ⟨h0, h1, h2⟩ := h
  have ht : stageTrace pp = [Ev.printE, Ev.abortE] := by
    simp [stageTrace, h0, h1, h2]
  rw [ht]
  refine ⟨rfl, by decide, by decide, by decide, by decide, ?_⟩
  simp [forwardResult, h0, h1, h2]

theorem c7_unknown_pp_rank_witness :
    stageTrace 3 = [Ev.printE, Ev.abortE] ∧
    Ev.allgatherE ∉ stageTrace 3 ∧
    Ev.kernelRun ∉ stageTrace 3 ∧
    Ev.bcastE ∉ stageTrace 3 ∧
    Ev.abortE ∈ stageTrace 3 ∧
    forwardResult S0 0 0 3 = none :=
  c7_unknown_pp_rank S0 0 0 3 (by decide)

/-- C8: on every rank at pipeline stage 0 or 1 the local `loss` variable
(`train_3d.c:34`) is still unassigned when control reaches the broadcast —
no statement of those branches writes it — and the value
`Model_forward_3d` returns there is exactly the stage-2 value installed by
the broadcast, so the return is well-defined only because the broadcast
runs on every rank first. -/
theorem c8_loss_defined_by_broadcast (S : Sys) (tp dp pp : Nat)
    (h : pp = 0 ∨ pp = 1) :
    preBcastLoss S tp dp pp = none ∧
    postBcastLoss S tp dp pp = some (stage2loss S tp dp) ∧
    forwardResult S tp dp pp = some (stage2loss S tp dp) := by
  rcases h with h | h <;> subst h <;> exact ⟨rfl, rfl, rfl⟩

theorem c8_loss_defined_by_broadcast_witness :
    preBcastLoss S0 0 0 1 = none ∧
    postBcastLoss S0 0 0 1 = some (stage2loss S0 0 0) ∧
    forwardResult S0 0 0 1 = some (stage2loss S0 0 0) :=
  c8_loss_defined_by_broadcast S0 0 0 1 (Or.inr rfl)
